import Mathlib

/-!
Shallow embedding of the auto-sleuth browser UI controller
(src/frontend/app.js, plus the older inline version in src/unnamed/part_000).

The controller is event-driven glue: each handler reads an HTTP response
(status plus a JSON body that may fail to parse) and writes strings into
fixed DOM slots.  We embed each handler as a pure function from its input
(the user's text, the fetched response) to a record of the DOM writes it
performs.  JSON bodies are records of `Option` fields (a missing field is
`none`); a body that fails to parse is `Except.error msg` where `msg` is the
engine's exception message.  JS numbers are modelled as exact rationals
paired with the string JS would interpolate for them.
-/

/-! ### JS string primitives (over `List Char`) -/

/-- `leadsWith s p`: the character list `p` is an initial segment of `s`. -/
def leadsWith : List Char → List Char → Bool
  | _, [] => true
  | [], _ :: _ => false
  | c :: cs, p :: ps => c == p && leadsWith cs ps

/-- `hasSubstr s p`: `p` occurs contiguously inside `s`
(the semantics of JS `String.prototype.includes`). -/
def hasSubstr : List Char → List Char → Bool
  | [], pat => leadsWith [] pat
  | c :: t, pat => leadsWith (c :: t) pat || hasSubstr t pat

/-- JS `s.includes(pat)`. -/
def jsIncludes (s pat : String) : Bool :=
  hasSubstr s.data pat.data

/-- The whitespace characters JS `trim` removes (the ASCII ones plus
no-break space; the exotic Unicode space separators never occur in the
inputs this model is used on). -/
def jsWhitespaceChar (c : Char) : Bool :=
  c == ' ' || c == '\t' || c == '\n' || c == '\r' || c == '\x0b' || c == '\x0c' || c == '\u00A0'

/-- JS `s.trim()`. -/
def jsTrim (s : String) : String :=
  String.mk (((s.data.dropWhile jsWhitespaceChar).reverse.dropWhile jsWhitespaceChar).reverse)

/-- JS `s.replace(/\n/g, '<br>')` (app.js line 257). -/
def newlinesToBr (s : String) : String :=
  String.mk (s.data.foldr (fun c acc => if c == '\n' then '<' :: 'b' :: 'r' :: '>' :: acc else c :: acc) [])

/-- JS `msg.replace(/^Error: /, '')` (app.js line 104): drop one leading
occurrence of the anchored pattern. -/
def stripLeadingErrorTag (msg : String) : String :=
  if leadsWith msg.data ("Error: ").data then String.mk (msg.data.drop 7) else msg

/-- JS template interpolation of a possibly-undefined string field:
`undefined` prints as "undefined". -/
def optStr : Option String → String
  | some s => s
  | none => "undefined"

/-- Truthiness of a possibly-undefined JS string: present and non-empty. -/
def strTruthy : Option String → Bool
  | some s => !(s == "")
  | none => false

/-- `response.ok`: HTTP status in the 200-299 range. -/
def respOk (status : Nat) : Bool :=
  200 ≤ status && status ≤ 299

/-- A JS number as the controller observes it: its exact value and the
string JS interpolates for it into a template. -/
structure JsNum where
  val : ℚ
  str : String
deriving DecidableEq

/-! ### Chat search (handleSearch / displayResults, app.js lines 52-107, 252-265) -/

/-- Parsed body of `/api/v1/agent/chat` (fields the controller reads). -/
structure ChatBody where
  car : Option String
  source : Option String
  detail : Option String
deriving DecidableEq

/-- The `{}` object substituted when the error body fails to parse
(app.js line 77). -/
def emptyChatBody : ChatBody := ⟨none, none, none⟩

/-- A fetched chat response: HTTP status plus the JSON parse outcome of its
body (`Except.error m` models `response.json()` throwing with message `m`). -/
structure ChatResponse where
  status : Nat
  body : Except String ChatBody

/-- app.js line 86. -/
def quotaExceededMsg : String :=
  "⚠️ Agent usage limit exceeded. Please try again later."

/-- app.js line 88. -/
def serviceUnavailableMsg : String :=
  "⚠️ Agent service is temporarily unavailable. Please try again."

/-- app.js line 105: the caught message wrapped in an error paragraph. -/
def errorParagraph (msg : String) : String :=
  "<p class=\"error\">" ++ msg ++ "</p>"

/-- app.js line 98. -/
def noDataHtml : String := "<p>No data available for this car.</p>"

/-- app.js lines 82-85: the error body has a truthy `detail` that contains
"RESOURCE_EXHAUSTED" or "429". -/
def hasQuotaMarker (b : ChatBody) : Bool :=
  match b.detail with
  | some d => !(d == "") && (jsIncludes d "RESOURCE_EXHAUSTED" || jsIncludes d "429")
  | none => false

/-- app.js line 77: the error body, or `{}` when it fails to parse. -/
def errorBodyData (resp : ChatResponse) : ChatBody :=
  match resp.body with
  | .ok b => b
  | .error _ => emptyChatBody

/-- app.js lines 78-90: the message of the `Error` thrown for a non-OK
chat response. -/
def chatFailureMessage (resp : ChatResponse) : String :=
  if resp.status == 502 || resp.status == 429 then
    if hasQuotaMarker (errorBodyData resp) then quotaExceededMsg else serviceUnavailableMsg
  else "API Error: " ++ toString resp.status

/-- app.js lines 252-265: `displayResults(resultText, query)`.  Note the
first argument gets the newline conversion and the second lands in the
heading. -/
def displayResults (resultText query : String) : String :=
  "\n        <h3>Analysis for \"" ++ query ++ "\"</h3>\n        <div class=\"agent-response\">\n            <p>" ++ newlinesToBr resultText ++ "</p>\n        </div>\n    "

/-- app.js lines 76-106: the final `results-content` HTML once the fetch
has resolved to `resp`.  Every branch (thrown error, parse failure, data
with a truthy `car`, data without) overwrites the loading spinner. -/
def searchResponseHtml (resp : ChatResponse) : String :=
  if respOk resp.status then
    match resp.body with
    | .error m => errorParagraph (stripLeadingErrorTag m)
    | .ok data =>
      match data.car with
      | some car => if car == "" then noDataHtml else displayResults car (optStr data.source)
      | none => noDataHtml
  else
    errorParagraph (stripLeadingErrorTag (chatFailureMessage resp))

/-- The DOM writes `handleSearch` performs: whether it alerted, the query
it POSTed (`none` = no request issued), whether it removed the
`results-hidden` class, and the final `results-content` innerHTML
(`none` = never written). -/
structure SearchOutcome where
  alerted : Bool
  requestedQuery : Option String
  resultsUnhidden : Bool
  resultsContent : Option String
deriving DecidableEq

/-- app.js lines 52-107: `handleSearch` on input value `inputValue`, when
the chat fetch resolves to `resp`. -/
def handleSearch (inputValue : String) (resp : ChatResponse) : SearchOutcome :=
  let query := jsTrim inputValue
  if query == "" then ⟨true, none, false, none⟩
  else ⟨false, some query, true, some (searchResponseHtml resp)⟩

/-! ### Agent status (checkAgentStatus, app.js lines 22-47) -/

/-- Parsed body of `/api/v1/agent/status`. -/
structure StatusBody where
  available : Option Bool
deriving DecidableEq

/-- Truthiness of a possibly-undefined JS boolean. -/
def boolTruthy : Option Bool → Bool
  | some b => b
  | none => false

/-- How the `checkAgentStatus` fetch resolves: a network-level throw, or a
response whose body parse succeeds or throws. -/
inductive StatusFetch where
  | fail
  | resp (body : Except String StatusBody)

/-- The property assignments `checkAgentStatus` may perform on the search
button and input (`none` = the property is left untouched). -/
structure AgentUIEffect where
  btnDisabled : Option Bool
  btnText : Option String
  btnTitle : Option String
  btnOpacity : Option String
  btnCursor : Option String
  inputDisabled : Option Bool
  inputPlaceholder : Option String
  inputCursor : Option String
deriving DecidableEq

/-- No DOM property is written. -/
def uiUnchanged : AgentUIEffect := ⟨none, none, none, none, none, none, none, none⟩

/-- app.js lines 31-42: the assignments made when `data.available` is falsy. -/
def agentOfflineEffect : AgentUIEffect :=
  ⟨some true, some "Agent Unavailable", some "Agent API Key is missing", some "0.6",
   some "not-allowed", some true, some "Agent is offline (API Key missing)", some "not-allowed"⟩

/-- app.js lines 22-47: `checkAgentStatus`.  A throw from `fetch` or from
`response.json()` is caught by the surrounding try/catch, which only logs. -/
def checkAgentStatus : StatusFetch → AgentUIEffect
  | .fail => uiUnchanged
  | .resp (.error _) => uiUnchanged
  | .resp (.ok data) =>
    if !(boolTruthy data.available) then agentOfflineEffect else uiUnchanged

/-! ### Fuel price dashboard (fetchFuelPrice / updateDashboardUI, app.js lines 112-245) -/

/-- The `location` object of a fuel-price body. -/
structure LocationInfo where
  city : Option String
  region : Option String
  regionName : Option String
  countryCode : Option String
deriving DecidableEq

/-- A JSON prices object: finitely many fuel-key/number fields.  The
controller only ever reads the four keys of `fuelMapping`. -/
def Prices := List (String × JsNum)

/-- Field access `prices[key]` (`none` = the property is absent). -/
def getPrice (prices : Prices) (key : String) : Option JsNum :=
  (List.find? (fun kv => kv.1 == key) prices).map (fun kv => kv.2)

/-- `price_data.regional`: `{region, prices}`. -/
structure RegionalData where
  region : Option String
  prices : Prices

/-- `price_data.national`: `{prices}`. -/
structure NationalData where
  prices : Prices

/-- `price_data`: up to two price columns. -/
structure PriceData where
  regional : Option RegionalData
  national : Option NationalData

/-- Parsed body of `/api/v1/fuel-price` (fields the controller reads). -/
structure FuelBody where
  location : Option LocationInfo
  price_data : Option PriceData
  fuel_price : Option Prices
  detail : Option String

/-- app.js lines 172-177 (also 223-228): the four known fuel keys with
their Italian labels, in iteration order. -/
def fuelMapping : List (String × String) :=
  [("gasoline", "Benzina"), ("diesel", "Gasolio"), ("gpl", "GPL"), ("methane", "Metano")]

/-- app.js line 183: `prices[key] && prices[key] > 0` — the entry is
rendered iff the key is present, truthy (non-zero) and positive. -/
def priceShown (prices : Prices) (key : String) : Bool :=
  match getPrice prices key with
  | some v => !(v.val == 0) && decide (0 < v.val)
  | none => false

/-- The string interpolated for `prices[key]` (only used on shown keys). -/
def priceText (prices : Prices) (key : String) : String :=
  match getPrice prices key with
  | some v => v.str
  | none => "undefined"

/-- app.js lines 185-190: one rendered fuel row. -/
def fuelItemHtml (label price : String) : String :=
  "\n                        <div class=\"fuel-item\">\n                            <span class=\"fuel-type\">" ++ label ++ "</span>\n                            <span class=\"fuel-price\">€" ++ price ++ "</span>\n                        </div>\n                    "

/-- app.js lines 182-192: the accumulation step of the rendering loop over
`fuelMapping` (accumulated html, `hasPrices` flag). -/
def priceListStep (prices : Prices) (acc : String × Bool) (kv : String × String) : String × Bool :=
  if priceShown prices kv.1 then (acc.1 ++ fuelItemHtml kv.2 (priceText prices kv.1), true) else acc

/-- app.js lines 171-195: `generatePriceList(prices, title)`; returns `""`
when no fuel row was rendered. -/
def generatePriceList (prices : Prices) (title : String) : String :=
  let start := "<div class=\"price-column\"><h4>" ++ title ++ "</h4>"
  let result := List.foldl (priceListStep prices) (start, false) fuelMapping
  if result.2 then result.1 ++ "</div>" else ""

/-- app.js lines 230-240: the legacy single-column rendering loop body. -/
def legacyItemsHtml (prices : Prices) : String :=
  List.foldl
    (fun acc kv =>
      if priceShown prices kv.1 then acc ++ "\n                    <div class=\"fuel-item\">\n                        <span class=\"fuel-type\">" ++ kv.2 ++ "</span>\n                        <span class=\"fuel-price\">€" ++ priceText prices kv.1 ++ "</span>\n                    </div>\n                " else acc)
    "<div class=\"price-label\">Prezzo Medio</div>" fuelMapping

/-- JS `a || b` for possibly-undefined strings, falling back to `b`
(app.js lines 159-160). -/
def jsOrStr (a : Option String) (b : String) : String :=
  match a with
  | some s => if s == "" then b else s
  | none => b

/-- app.js lines 156-164: the `user-location` text. -/
def locationText (data : FuelBody) : String :=
  match data.location with
  | some loc =>
    match loc.city with
    | some city =>
      if city == "" then "Unknown Location"
      else city ++ ", " ++ jsOrStr loc.regionName (jsOrStr loc.region "") ++ " (" ++ jsOrStr loc.countryCode "IT" ++ ")"
    | none => "Unknown Location"
  | none => "Unknown Location"

/-- app.js lines 166-244: the `gas-prices` innerHTML. -/
def dashPricesHtml (data : FuelBody) : String :=
  match data.price_data with
  | some pd =>
    let contentHtml :=
      (match pd.regional with
       | some r => generatePriceList r.prices ("Media " ++ optStr r.region)
       | none => "") ++
      (match pd.national with
       | some n => generatePriceList n.prices "Media Italia"
       | none => "")
    if contentHtml == "" then "<p>Prezzi non disponibili.</p>"
    else "<div class=\"prices-container\" style=\"display: flex; gap: 2rem;\">" ++ contentHtml ++ "</div>"
  | none =>
    match data.fuel_price with
    | some prices => legacyItemsHtml prices
    | none => "<p>Prices unavailable</p>"

/-- The dashboard slots written once `fetchFuelPrice` finishes. -/
structure DashOutcome where
  userLocation : String
  gasPrices : String
deriving DecidableEq

/-- app.js lines 152-245: `updateDashboardUI(data)`. -/
def updateDashboardUI (data : FuelBody) : DashOutcome :=
  ⟨locationText data, dashPricesHtml data⟩

/-- Which terminal branch of `fetchFuelPrice` produced the outcome. -/
inductive DashPath where
  | forbidden
  | genericFailure
  | success
deriving DecidableEq

/-- How the fuel-price fetch resolves. -/
inductive FuelFetch where
  | fail
  | resp (status : Nat) (body : Except String FuelBody)

/-- app.js lines 112-146: `fetchFuelPrice`.  The 403 branch is checked
before `response.ok`; any throw (network, body parse — including a parse
failure of the 403 error body, which is fetched without a `.catch`) lands
in the catch block. -/
def fetchFuelPrice : FuelFetch → DashPath × DashOutcome
  | .fail => (.genericFailure, ⟨"Location Unavailable", "<p>Could not load prices</p>"⟩)
  | .resp status body =>
    if status == 403 then
      match body with
      | .ok b =>
        (.forbidden, ⟨"Location Unavailable", "<p class=\"error-message\">" ++ optStr b.detail ++ "</p>"⟩)
      | .error _ => (.genericFailure, ⟨"Location Unavailable", "<p>Could not load prices</p>"⟩)
    else if !(respOk status) then
      (.genericFailure, ⟨"Location Unavailable", "<p>Could not load prices</p>"⟩)
    else
      match body with
      | .ok data => (.success, updateDashboardUI data)
      | .error _ => (.genericFailure, ⟨"Location Unavailable", "<p>Could not load prices</p>"⟩)

/-! ### Claim-side definitions and concrete instances -/

/-- Claim-side fallback chain: the option when it is present and non-empty,
else the default. -/
def presentOr (a : Option String) (dflt : String) : String :=
  match a with
  | some s => if s = "" then dflt else s
  | none => dflt

/-- Claim-side characterisation for the price list: the fuel entries whose
price is present and strictly positive, in `fuelMapping` order. -/
def positiveFuels (prices : Prices) : List (String × String) :=
  List.filter
    (fun kv => match getPrice prices kv.1 with
      | some v => decide (0 < v.val)
      | none => false) fuelMapping

/-- Concatenation of a list of strings. -/
def concatAll : List String → String
  | [] => ""
  | s :: t => s ++ concatAll t

/-- A 429 chat response whose body carries the quota marker. -/
def chatQuotaResp : ChatResponse :=
  ⟨429, .ok ⟨none, none, some "Gemini error: RESOURCE_EXHAUSTED"⟩⟩

/-- A successful chat response with both `car` and `source`, with a newline
inside `source`, fetched for the query "Panda 4x4". -/
def chatSwapResp : ChatResponse :=
  ⟨200, .ok ⟨some "Fiat Panda", some "From manual\npage 3", none⟩⟩

/-- The fuel-price body of the spec example: regional prices
`{gasoline: 1.8, diesel: 0}`. -/
def fuelSpecBody : FuelBody :=
  ⟨none, some ⟨some ⟨some "Lazio", [("gasoline", ⟨mkRat 9 5, "1.8"⟩), ("diesel", ⟨0, "0"⟩)]⟩, none⟩, none, none⟩

/-! ### Helper lemmas -/

theorem string_data_append (s t : String) : (s ++ t).data = s.data ++ t.data := by
  cases s; cases t; rfl

theorem string_append_empty (s : String) : s ++ "" = s := by
  apply String.ext
  rw [string_data_append]
  simp [String.data]

theorem handleSearch_nonempty (input : String) (resp : ChatResponse)
    (h : jsTrim input ≠ "") :
    handleSearch input resp = ⟨false, some (jsTrim input), true, some (searchResponseHtml resp)⟩ := by
  simp [handleSearch, h]

theorem searchResponseHtml_notOk (resp : ChatResponse) (hok : respOk resp.status = false) :
    searchResponseHtml resp = errorParagraph (stripLeadingErrorTag (chatFailureMessage resp)) := by
  simp [searchResponseHtml, hok]

theorem stripTag_quota : stripLeadingErrorTag quotaExceededMsg = quotaExceededMsg := by decide

theorem stripTag_service : stripLeadingErrorTag serviceUnavailableMsg = serviceUnavailableMsg := by
  decide

theorem stripTag_apiError (t : String) :
    stripLeadingErrorTag ("API Error: " ++ t) = "API Error: " ++ t := by
  have h : leadsWith ("API Error: " ++ t).data ("Error: ").data = false := by
    rw [string_data_append]; rfl
  unfold stripLeadingErrorTag
  simp only [h]
  simp

theorem apiError_ne_quota (t : String) : "API Error: " ++ t ≠ quotaExceededMsg := by
  intro h
  have h2 : List.head? (String.data ("API Error: " ++ t)) = List.head? (String.data quotaExceededMsg) := by
    rw [h]
  have hl : List.head? (String.data ("API Error: " ++ t)) = some 'A' := by
    rw [string_data_append]; rfl
  have hr : List.head? (String.data quotaExceededMsg) = some '⚠' := rfl
  rw [hl, hr] at h2
  exact absurd h2 (by decide)

theorem chatFailureMessage_quota (resp : ChatResponse)
    (h42 : resp.status = 429 ∨ resp.status = 502)
    (hm : hasQuotaMarker (errorBodyData resp) = true) :
    chatFailureMessage resp = quotaExceededMsg := by
  rcases h42 with h | h <;> simp [chatFailureMessage, h, hm]

theorem chatFailureMessage_service (resp : ChatResponse)
    (h42 : resp.status = 429 ∨ resp.status = 502)
    (hm : hasQuotaMarker (errorBodyData resp) = false) :
    chatFailureMessage resp = serviceUnavailableMsg := by
  rcases h42 with h | h <;> simp [chatFailureMessage, h, hm]

theorem chatFailureMessage_other (resp : ChatResponse)
    (h1 : resp.status ≠ 429) (h2 : resp.status ≠ 502) :
    chatFailureMessage resp = "API Error: " ++ toString resp.status := by
  simp [chatFailureMessage, h1, h2]

/-! ### Claim theorems -/

/-- C1: for every chat response with non-OK HTTP status, after a non-blank
query: status 429 or 502 with the quota marker in the parsed error body
renders the quota-exceeded message; 429 or 502 without the marker renders
the generic service-unavailable message; any other non-OK status renders
"API Error: <status>" (each wrapped in the error paragraph written to
`results-content`). -/
theorem handleSearch_error_status_message_mapping (input : String) (resp : ChatResponse)
    (hq : jsTrim input ≠ "") (hok : respOk resp.status = false) :
    ((resp.status = 429 ∨ resp.status = 502) → hasQuotaMarker (errorBodyData resp) = true →
      (handleSearch input resp).resultsContent = some (errorParagraph quotaExceededMsg))
  ∧ ((resp.status = 429 ∨ resp.status = 502) → hasQuotaMarker (errorBodyData resp) = false →
      (handleSearch input resp).resultsContent = some (errorParagraph serviceUnavailableMsg))
  ∧ (resp.status ≠ 429 → resp.status ≠ 502 →
      (handleSearch input resp).resultsContent =
        some (errorParagraph ("API Error: " ++ toString resp.status))) := by
  rw [handleSearch_nonempty input resp hq]
  refine ⟨fun h42 hm => ?_, fun h42 hm => ?_, fun h1 h2 => ?_⟩
  · rw [searchResponseHtml_notOk resp hok, chatFailureMessage_quota resp h42 hm, stripTag_quota]
  · rw [searchResponseHtml_notOk resp hok, chatFailureMessage_service resp h42 hm, stripTag_service]
  · rw [searchResponseHtml_notOk resp hok, chatFailureMessage_other resp h1 h2, stripTag_apiError]

/-- C1 witness: the mapping evaluated on a 429 response carrying the
RESOURCE_EXHAUSTED marker. -/
theorem handleSearch_error_status_message_mapping_witness :
    jsTrim "Fiat Panda" ≠ "" ∧ respOk chatQuotaResp.status = false ∧
    (handleSearch "Fiat Panda" chatQuotaResp).resultsContent =
      some (errorParagraph quotaExceededMsg) :=
  ⟨by decide, by decide,
   (handleSearch_error_status_message_mapping "Fiat Panda" chatQuotaResp
      (by decide) (by decide)).1 (Or.inl rfl) (by decide)⟩

/-- C4: an input that trims to the empty string makes `handleSearch` alert
and return: no request is issued, the results section class is untouched
and `results-content` is never written. -/
theorem handleSearch_blank_query_no_request (input : String) (resp : ChatResponse)
    (h : jsTrim input = "") :
    handleSearch input resp = ⟨true, none, false, none⟩ := by
  simp [handleSearch, h]

/-- C4 witness: a whitespace-only input. -/
theorem handleSearch_blank_query_no_request_witness :
    jsTrim " \t\n " = "" ∧
    handleSearch " \t\n " ⟨200, .ok emptyChatBody⟩ = ⟨true, none, false, none⟩ :=
  ⟨by decide, handleSearch_blank_query_no_request " \t\n " ⟨200, .ok emptyChatBody⟩ (by decide)⟩

/-- C8: a 200 chat response whose parsed body has no truthy `car` field
renders the no-data message. -/
theorem handleSearch_ok_without_car_shows_no_data (input : String) (resp : ChatResponse)
    (data : ChatBody) (hq : jsTrim input ≠ "") (hs : resp.status = 200)
    (hb : resp.body = .ok data) (hcar : strTruthy data.car = false) :
    (handleSearch input resp).resultsContent = some noDataHtml := by
  rw [handleSearch_nonempty input resp hq]
  have hok : respOk resp.status = true := by rw [hs]; decide
  cases hc : data.car with
  | none => simp [searchResponseHtml, hok, hb, hc]
  | some c =>
    have hce : c = "" := by
      rw [hc] at hcar
      simpa [strTruthy] using hcar
    simp [searchResponseHtml, hok, hb, hc, hce]

/-- C8 witness: a 200 response whose body has no `car` field. -/
theorem handleSearch_ok_without_car_shows_no_data_witness :
    jsTrim "Fiat" ≠ "" ∧ strTruthy (emptyChatBody).car = false ∧
    (handleSearch "Fiat" ⟨200, .ok emptyChatBody⟩).resultsContent = some noDataHtml :=
  ⟨by decide, by decide,
   handleSearch_ok_without_car_shows_no_data "Fiat" ⟨200, .ok emptyChatBody⟩ emptyChatBody
     (by decide) rfl rfl (by decide)⟩

/-- C9: a transport failure during `checkAgentStatus` — a throw from
`fetch` or from `response.json()` — leaves every button/input property
unwritten: the UI fails open. -/
theorem checkAgentStatus_transport_failure_leaves_ui :
    checkAgentStatus .fail = uiUnchanged ∧
    ∀ m, checkAgentStatus (.resp (.error m)) = uiUnchanged :=
  ⟨rfl, fun _ => rfl⟩

/-- C6: an agent-status body with `available = false` disables the search
button and input and sets the explanatory label, title and placeholder. -/
theorem checkAgentStatus_unavailable_disables_search (data : StatusBody)
    (h : data.available = some false) :
    checkAgentStatus (.resp (.ok data)) = agentOfflineEffect ∧
    agentOfflineEffect.btnDisabled = some true ∧
    agentOfflineEffect.inputDisabled = some true ∧
    agentOfflineEffect.btnText = some "Agent Unavailable" ∧
    agentOfflineEffect.btnTitle = some "Agent API Key is missing" ∧
    agentOfflineEffect.inputPlaceholder = some "Agent is offline (API Key missing)" := by
  refine ⟨?_, rfl, rfl, rfl, rfl, rfl⟩
  simp [checkAgentStatus, h, boolTruthy]

/-- C6 witness: `{available: false}`. -/
theorem checkAgentStatus_unavailable_disables_search_witness :
    (⟨some false⟩ : StatusBody).available = some false ∧
    checkAgentStatus (.resp (.ok ⟨some false⟩)) = agentOfflineEffect :=
  ⟨rfl, (checkAgentStatus_unavailable_disables_search ⟨some false⟩ rfl).1⟩

/-- C5: a 403 fuel-price response whose body parses with a `detail` string
takes the forbidden branch: location text "Location Unavailable", the
server's detail rendered verbatim in the price display, and neither the
generic-failure nor the success branch is taken. -/
theorem fetchFuelPrice_forbidden_renders_detail (b : FuelBody) (d : String)
    (hd : b.detail = some d) :
    fetchFuelPrice (.resp 403 (.ok b)) =
      (.forbidden,
       ⟨"Location Unavailable", "<p class=\"error-message\">" ++ d ++ "</p>"⟩) ∧
    (fetchFuelPrice (.resp 403 (.ok b))).1 ≠ DashPath.genericFailure ∧
    (fetchFuelPrice (.resp 403 (.ok b))).1 ≠ DashPath.success := by
  have h : fetchFuelPrice (.resp 403 (.ok b)) =
      (.forbidden,
       ⟨"Location Unavailable", "<p class=\"error-message\">" ++ d ++ "</p>"⟩) := by
    simp [fetchFuelPrice, hd, optStr]
  refine ⟨h, ?_, ?_⟩ <;> rw [h] <;> simp

/-- C5 witness: a 403 body carrying a detail string. -/
theorem fetchFuelPrice_forbidden_renders_detail_witness :
    (⟨none, none, none, some "Daily quota reached"⟩ : FuelBody).detail = some "Daily quota reached" ∧
    fetchFuelPrice (.resp 403 (.ok ⟨none, none, none, some "Daily quota reached"⟩)) =
      (.forbidden,
       ⟨"Location Unavailable", "<p class=\"error-message\">Daily quota reached</p>"⟩) :=
  ⟨rfl, (fetchFuelPrice_forbidden_renders_detail _ "Daily quota reached" rfl).1⟩

/-- C10: a non-OK chat response whose body fails to parse still renders an
error message — the generic one for 429/502, "API Error: <status>"
otherwise — and the quota-exceeded message is never produced. -/
theorem handleSearch_unparseable_error_body_generic_message (input : String)
    (status : Nat) (m : String) (hq : jsTrim input ≠ "") (hok : respOk status = false) :
    ((handleSearch input ⟨status, .error m⟩).resultsContent =
      some (errorParagraph
        (if status = 502 ∨ status = 429 then serviceUnavailableMsg
         else "API Error: " ++ toString status)))
  ∧ chatFailureMessage ⟨status, .error m⟩ ≠ quotaExceededMsg := by
  have hmark : hasQuotaMarker (errorBodyData ⟨status, .error m⟩) = false := rfl
  by_cases h42 : status = 502 ∨ status = 429
  · have hmsg : chatFailureMessage ⟨status, .error m⟩ = serviceUnavailableMsg :=
      chatFailureMessage_service ⟨status, .error m⟩ (Or.symm h42) hmark
    constructor
    · rw [handleSearch_nonempty input ⟨status, .error m⟩ hq]
      rw [searchResponseHtml_notOk _ hok, hmsg, stripTag_service, if_pos h42]
    · rw [hmsg]; decide
  · push_neg at h42
    have hmsg : chatFailureMessage ⟨status, .error m⟩ = "API Error: " ++ toString status :=
      chatFailureMessage_other ⟨status, .error m⟩ h42.2 h42.1
    constructor
    · rw [handleSearch_nonempty input ⟨status, .error m⟩ hq]
      rw [searchResponseHtml_notOk _ hok, hmsg, stripTag_apiError,
        if_neg (by push_neg; exact h42)]
    · rw [hmsg]; exact apiError_ne_quota _

/-- C10 witness: a 502 response with an unparseable body. -/
theorem handleSearch_unparseable_error_body_generic_message_witness :
    jsTrim "Fiat" ≠ "" ∧ respOk 502 = false ∧
    ((handleSearch "Fiat" ⟨502, .error "Unexpected token < in JSON"⟩).resultsContent =
      some (errorParagraph serviceUnavailableMsg) ∧
     chatFailureMessage ⟨502, .error "Unexpected token < in JSON"⟩ ≠ quotaExceededMsg) := by
  refine ⟨by decide, by decide, ?_⟩
  have h := handleSearch_unparseable_error_body_generic_message "Fiat" 502
    "Unexpected token < in JSON" (by decide) (by decide)
  rw [if_pos (Or.inl rfl)] at h
  exact h

theorem string_append_assoc (a b c : String) : a ++ b ++ c = a ++ (b ++ c) := by
  apply String.ext
  simp [string_data_append, List.append_assoc]

theorem priceShown_eq_positive (prices : Prices) (key : String) :
    priceShown prices key =
      (match getPrice prices key with
       | some v => decide (0 < v.val)
       | none => false) := by
  cases hg : getPrice prices key with
  | none => simp [priceShown, hg]
  | some v =>
    simp only [priceShown, hg]
    by_cases h : 0 < v.val
    · simp [h, ne_of_gt h]
    · simp [h]

theorem priceList_foldl (prices : Prices) (l : List (String × String)) (s : String) (b : Bool) :
    List.foldl (priceListStep prices) (s, b) l =
      (s ++ concatAll (List.map (fun kv => fuelItemHtml kv.2 (priceText prices kv.1))
          (List.filter (fun kv => priceShown prices kv.1) l)),
       b || List.any l (fun kv => priceShown prices kv.1)) := by
  induction l generalizing s b with
  | nil => simp [concatAll, string_append_empty]
  | cons kv t ih =>
    simp only [List.foldl_cons, priceListStep]
    cases h : priceShown prices kv.1 with
    | true =>
      rw [if_pos rfl]
      rw [ih]
      simp [h, concatAll, string_append_assoc]
    | false =>
      rw [if_neg (by simp)]
      rw [ih]
      simp [h]

theorem any_eq_not_filter_isEmpty {α : Type} (p : α → Bool) (l : List α) :
    l.any p = !(l.filter p).isEmpty := by
  induction l with
  | nil => rfl
  | cons a t ih => by_cases h : p a <;> simp [h, ih]

set_option maxRecDepth 8000 in
/-- C3: for every prices object, `generatePriceList` renders exactly one
fuel row per key of `fuelMapping` whose price is present and strictly
positive (in order), and returns the empty column when there is none; on
the spec's example `{gasoline: 1.8, diesel: 0}` the dashboard output shows
a Benzina row with €1.8 and no Gasolio row. -/
theorem generatePriceList_exactly_positive_fuels :
    (∀ (prices : Prices) (title : String),
      generatePriceList prices title =
        if positiveFuels prices = [] then ""
        else "<div class=\"price-column\"><h4>" ++ title ++ "</h4>" ++
             concatAll (List.map (fun kv => fuelItemHtml kv.2 (priceText prices kv.1))
               (positiveFuels prices)) ++ "</div>")
  ∧ jsIncludes (updateDashboardUI fuelSpecBody).gasPrices "Benzina" = true
  ∧ jsIncludes (updateDashboardUI fuelSpecBody).gasPrices "€1.8" = true
  ∧ jsIncludes (updateDashboardUI fuelSpecBody).gasPrices "Gasolio" = false := by
  refine ⟨?_, by decide, by decide, by decide⟩
  intro prices title
  have hfc : List.filter (fun kv => priceShown prices kv.1) fuelMapping = positiveFuels prices := by
    unfold positiveFuels
    apply List.filter_congr
    intro kv _
    exact priceShown_eq_positive prices kv.1
  simp only [generatePriceList]
  rw [priceList_foldl]
  simp only [Bool.false_or, hfc, any_eq_not_filter_isEmpty]
  by_cases hz : positiveFuels prices = []
  · simp [hz]
  · have hne : (positiveFuels prices).isEmpty = false := by
      cases hp : positiveFuels prices with
      | nil => exact absurd hp hz
      | cons a t => rfl
    simp [hz, hne]

/-- C7: a successful fuel-price body with a (non-empty) city renders
"city, region (country)", the region being regionName when present and
non-empty, else region, else the empty string, and the country being
countryCode when present and non-empty, else "IT"; a body without a city
renders "Unknown Location". -/
theorem updateDashboardUI_location_format (data : FuelBody) :
    (∀ loc c, data.location = some loc → loc.city = some c → c ≠ "" →
      (updateDashboardUI data).userLocation =
        c ++ ", " ++ presentOr loc.regionName (presentOr loc.region "") ++ " (" ++
          presentOr loc.countryCode "IT" ++ ")")
  ∧ ((data.location = none ∨ ∃ loc, data.location = some loc ∧ loc.city = none) →
      (updateDashboardUI data).userLocation = "Unknown Location") := by
  have hjs : ∀ (a : Option String) (dflt : String), jsOrStr a dflt = presentOr a dflt := by
    intro a dflt
    cases a with
    | none => rfl
    | some s => simp [jsOrStr, presentOr]
  constructor
  · intro loc c hloc hc hcne
    simp [updateDashboardUI, locationText, hloc, hc, hcne, hjs]
  · rintro (h | ⟨loc, hloc, hc⟩)
    · simp [updateDashboardUI, locationText, h]
    · simp [updateDashboardUI, locationText, hloc, hc]

/-- C7 witness: city "Roma", no regionName, region "Lazio", no country
code. -/
theorem updateDashboardUI_location_format_witness :
    (updateDashboardUI ⟨some ⟨some "Roma", some "Lazio", none, none⟩, none, none, none⟩).userLocation
      = "Roma, Lazio (IT)" := by
  have h := (updateDashboardUI_location_format
      ⟨some ⟨some "Roma", some "Lazio", none, none⟩, none, none, none⟩).1
    ⟨some "Roma", some "Lazio", none, none⟩ "Roma" rfl rfl (by decide)
  rw [h]
  decide

set_option maxRecDepth 8000 in
/-- C2 (code bug at app.js line 96): for the query "Panda 4x4" and the
200 response `{car: "Fiat Panda", source: "From manual\npage 3"}`, the
call `displayResults(data.car, data.source)` puts the raw source text —
newline included — into the heading slot that `displayResults` documents
as "The search query", and applies the newline conversion to the car
text: the user's query appears nowhere in the output, the source text is
not newline-converted, and the heading carries the raw source. -/
theorem displayResults_call_swaps_query_and_source :
    (handleSearch "Panda 4x4" chatSwapResp).resultsContent
      = some (displayResults "Fiat Panda" "From manual\npage 3")
  ∧ jsIncludes ((handleSearch "Panda 4x4" chatSwapResp).resultsContent.getD "")
      "Panda 4x4" = false
  ∧ jsIncludes ((handleSearch "Panda 4x4" chatSwapResp).resultsContent.getD "")
      "From manual<br>page 3" = false
  ∧ jsIncludes ((handleSearch "Panda 4x4" chatSwapResp).resultsContent.getD "")
      "Analysis for \"From manual\npage 3\"" = true := by
  refine ⟨by decide, by decide, by decide, by decide⟩
